import Mathlib

/-!
Verification of the `code-challenge` repository against its specification.

The development shallowly embeds the program fragments the claims are about:

* `SumToN` — the four sum-to-n implementations of `src/problem1/sum_to_n`
  (`sum_to_n_a` iterative, `sum_to_n_b` closed form, `sum_to_n_c` recursive
  with an iterative fallback for `n > 10000`, `sum_to_n_c_optimized`
  tail-recursive with a closed-form fallback for `n > 50000`), together with
  the TypeScript input validation (`Number.isInteger(n) && n >= 0`).
  JavaScript numbers are embedded as `ℚ` where non-integer inputs matter and
  as `ℕ` for the validated arithmetic.
* `ActionToken` — the `validateActionToken` pipeline documented in
  `problem6/SECURITY.md` (signature check, 5-minute expiry window, redis
  nonce lookup, nonce store with a 10-minute TTL).
* `Fraud` — the `FraudDetectionEngine` of `problem6/SECURITY.md`
  (`assessRisk` weighted sum, `getRecommendation` thresholds, and the
  documented analyzers `analyzeFrequency`, `analyzeScorePattern`,
  `analyzeBehavior`).
* `Ledger` — the Score Ledger, which has no code anywhere in the repository
  (the scoreboard service is design-only documentation); it is modelled from
  the spec.
* `Crud` — the problem5 CRUD layer (`UserModel` and `UserController`),
  instrumented to count database round trips, plus the Joi `querySchema`
  bound on `limit`.
-/

namespace SumToN

/-- The iterative loop `let sum = 0; for (let i = 1; i <= n; i++) sum += i`
shared by `sum_to_n_a` and the large-`n` fallback of `sum_to_n_c`. -/
def sumLoop : Nat → Nat
  | 0 => 0
  | n + 1 => sumLoop n + (n + 1)

/-- `sum_to_n_a` (iterative approach) on a validated non-negative integer. -/
def sum_to_n_a (n : Nat) : Nat := sumLoop n

/-- `sum_to_n_b`: the closed form `(n * (n + 1)) / 2`.  The product
`n * (n + 1)` is even, so natural division is exact here. -/
def sum_to_n_b (n : Nat) : Nat := n * (n + 1) / 2

/-- `sum_to_n_c`: recursive approach with the stack-overflow protection
branch that falls back to the iterative loop when `n > 10000`. -/
def sum_to_n_c : Nat → Nat
  | 0 => 0
  | 1 => 1
  | n + 2 =>
    if n + 2 > 10000 then sumLoop (n + 2)
    else (n + 2) + sum_to_n_c (n + 1)

/-- `sum_to_n_c_optimized`: tail-recursive with an accumulator, falling back
to `accumulator + (n * (n + 1)) / 2` when `n > 50000`. -/
def sum_to_n_c_optimized : Nat → Nat → Nat
  | 0, acc => acc
  | n + 1, acc =>
    if n + 1 > 50000 then acc + ((n + 1) * (n + 2)) / 2
    else sum_to_n_c_optimized n (acc + (n + 1))

theorem two_mul_sumLoop (n : Nat) : 2 * sumLoop n = n * (n + 1) := by
  induction n with
  | zero => rfl
  | succ k ih =>
    show 2 * (sumLoop k + (k + 1)) = (k + 1) * (k + 2)
    calc 2 * (sumLoop k + (k + 1)) = 2 * sumLoop k + 2 * (k + 1) := by ring
    _ = k * (k + 1) + 2 * (k + 1) := by rw [ih]
    _ = (k + 1) * (k + 2) := by ring

theorem sumLoop_eq (n : Nat) : sumLoop n = n * (n + 1) / 2 := by
  have h := two_mul_sumLoop n
  omega

theorem sum_to_n_c_eq : ∀ n, sum_to_n_c n = sumLoop n
  | 0 => rfl
  | 1 => rfl
  | n + 2 => by
    rw [sum_to_n_c]
    split
    · rfl
    · rw [sum_to_n_c_eq (n + 1)]
      show (n + 2) + sumLoop (n + 1) = sumLoop (n + 1) + (n + 2)
      omega

theorem sum_to_n_c_optimized_eq : ∀ n acc, sum_to_n_c_optimized n acc = acc + sumLoop n
  | 0, acc => by simp [sum_to_n_c_optimized, sumLoop]
  | n + 1, acc => by
    rw [sum_to_n_c_optimized]
    split
    · have h : 2 * sumLoop (n + 1) = (n + 1) * (n + 2) := two_mul_sumLoop (n + 1)
      have hdiv : (n + 1) * (n + 2) / 2 = sumLoop (n + 1) := by omega
      rw [hdiv]
    · rw [sum_to_n_c_optimized_eq n (acc + (n + 1))]
      show acc + (n + 1) + sumLoop n = acc + (sumLoop n + (n + 1))
      omega

/-- C7: on every non-negative integer `n`, the iterative, closed-form,
recursive and tail-recursive (with default accumulator 0) sum-to-n
implementations all return `n * (n + 1) / 2`. -/
theorem claim_C7 (n : Nat) :
    sum_to_n_a n = n * (n + 1) / 2 ∧
    sum_to_n_b n = n * (n + 1) / 2 ∧
    sum_to_n_c n = n * (n + 1) / 2 ∧
    sum_to_n_c_optimized n 0 = n * (n + 1) / 2 := by
  refine ⟨sumLoop_eq n, rfl, ?_, ?_⟩
  · rw [sum_to_n_c_eq n]; exact sumLoop_eq n
  · rw [sum_to_n_c_optimized_eq n 0, Nat.zero_add]; exact sumLoop_eq n

/-- The TypeScript guard `Number.isInteger(n) && n >= 0`, on a JavaScript
number embedded as `ℚ`. -/
def isNonnegInt (q : ℚ) : Bool := decide (q.den = 1) && decide (0 ≤ q.num)

/-- `sum_to_n_a` with its input validation: throws
`Input must be a non-negative integer` on invalid input. -/
def sum_to_n_a_checked (q : ℚ) : Except String ℚ :=
  if isNonnegInt q then .ok ((sumLoop q.num.toNat : Nat) : ℚ)
  else .error "Input must be a non-negative integer"

/-- `sum_to_n_b` with its input validation. -/
def sum_to_n_b_checked (q : ℚ) : Except String ℚ :=
  if isNonnegInt q then .ok ((sum_to_n_b q.num.toNat : Nat) : ℚ)
  else .error "Input must be a non-negative integer"

/-- `sum_to_n_c` with its input validation.  The recursive call re-validates
its argument, but `n - 1` of a validated positive integer passes the check
again, so the body is the pure recursion `sum_to_n_c`. -/
def sum_to_n_c_checked (q : ℚ) : Except String ℚ :=
  if isNonnegInt q then .ok ((sum_to_n_c q.num.toNat : Nat) : ℚ)
  else .error "Input must be a non-negative integer"

/-- `sum_to_n_c_optimized` with its two validations (input and accumulator);
the recursive call passes a validated `n - 1` and `accumulator + n`, which
pass the checks again, so the body is the pure recursion. -/
def sum_to_n_c_optimized_checked (q acc : ℚ) : Except String ℚ :=
  if ¬ isNonnegInt q then .error "Input must be a non-negative integer"
  else if ¬ isNonnegInt acc then .error "Accumulator must be a non-negative integer"
  else .ok ((sum_to_n_c_optimized q.num.toNat acc.num.toNat : Nat) : ℚ)

/-- C8: each validated sum-to-n function throws exactly when the input is
not a non-negative integer, and returns normally on every non-negative
integer (the tail-recursive variant taken with its default accumulator 0). -/
theorem claim_C8 (q : ℚ) :
    ((sum_to_n_a_checked q).isOk = true ↔ q.den = 1 ∧ 0 ≤ q) ∧
    ((sum_to_n_b_checked q).isOk = true ↔ q.den = 1 ∧ 0 ≤ q) ∧
    ((sum_to_n_c_checked q).isOk = true ↔ q.den = 1 ∧ 0 ≤ q) ∧
    ((sum_to_n_c_optimized_checked q 0).isOk = true ↔ q.den = 1 ∧ 0 ≤ q) := by
  have hnum : 0 ≤ q.num ↔ 0 ≤ q := by
    exact_mod_cast Rat.num_nonneg (q := q)
  have hvalid : isNonnegInt q = true ↔ q.den = 1 ∧ 0 ≤ q := by
    simp [isNonnegInt, hnum]
  have hzero : isNonnegInt 0 = true := by decide
  refine ⟨?_, ?_, ?_, ?_⟩
  · unfold sum_to_n_a_checked
    split <;> simp_all [Except.isOk, Except.toBool]
  · unfold sum_to_n_b_checked
    split <;> simp_all [Except.isOk, Except.toBool]
  · unfold sum_to_n_c_checked
    split <;> simp_all [Except.isOk, Except.toBool]
  · unfold sum_to_n_c_optimized_checked
    rw [hzero]
    split <;> simp_all [Except.isOk, Except.toBool]

end SumToN

namespace Fraud

/-- Recommendations returned by `FraudDetectionEngine.getRecommendation`. -/
inductive Recommendation
  | ALLOW
  | MONITOR
  | CHALLENGE
  | BLOCK
deriving DecidableEq

/-- `FraudDetectionEngine.getRecommendation`: the documented threshold
cascade on the risk score. -/
def getRecommendation (riskScore : ℚ) : Recommendation :=
  if 0.8 ≤ riskScore then .BLOCK
  else if 0.6 ≤ riskScore then .CHALLENGE
  else if 0.4 ≤ riskScore then .MONITOR
  else .ALLOW

/-- `FraudDetectionEngine.assessRisk`, as a function of its five awaited
sub-scores: the weighted running total with weights 0.3, 0.25, 0.2, 0.15,
0.1; the returned `totalRiskScore` field is capped by
`Math.min(totalRiskScore, 1.0)` while the recommendation is computed from
the uncapped total, as in the source. -/
def assessRisk (frequencyRisk patternRisk behaviorRisk deviceRisk timeRisk : ℚ) :
    ℚ × Recommendation :=
  let totalRiskScore :=
    frequencyRisk * 0.3 + patternRisk * 0.25 + behaviorRisk * 0.2 +
      deviceRisk * 0.15 + timeRisk * 0.1
  (min totalRiskScore 1, getRecommendation totalRiskScore)

/-- C4: over risk scores in [0,1], the recommendation is BLOCK iff
risk ≥ 0.8, CHALLENGE iff 0.6 ≤ risk < 0.8, MONITOR iff 0.4 ≤ risk < 0.6,
and ALLOW iff risk < 0.4. -/
theorem claim_C4 (r : ℚ) (h0 : 0 ≤ r) (h1 : r ≤ 1) :
    (getRecommendation r = .BLOCK ↔ 0.8 ≤ r) ∧
    (getRecommendation r = .CHALLENGE ↔ 0.6 ≤ r ∧ r < 0.8) ∧
    (getRecommendation r = .MONITOR ↔ 0.4 ≤ r ∧ r < 0.6) ∧
    (getRecommendation r = .ALLOW ↔ r < 0.4) := by
  unfold getRecommendation
  split_ifs with hb hc hm <;>
    refine ⟨?_, ?_, ?_, ?_⟩ <;> simp_all <;>
    first
      | linarith
      | (intro h; linarith)
      | (constructor <;> intro h <;> linarith)

/-- Witness for C4 at the concrete risk score 0.7. -/
theorem claim_C4_witness :
    (getRecommendation 0.7 = .BLOCK ↔ (0.8 : ℚ) ≤ 0.7) ∧
    (getRecommendation 0.7 = .CHALLENGE ↔ (0.6 : ℚ) ≤ 0.7 ∧ (0.7 : ℚ) < 0.8) ∧
    (getRecommendation 0.7 = .MONITOR ↔ (0.4 : ℚ) ≤ 0.7 ∧ (0.7 : ℚ) < 0.6) ∧
    (getRecommendation 0.7 = .ALLOW ↔ (0.7 : ℚ) < 0.4) :=
  claim_C4 0.7 (by norm_num) (by norm_num)

/-- C5: the documented weights sum exactly to 1, and whenever every
sub-score lies in [0,1], the total risk score returned by `assessRisk`
lies in [0,1]. -/
theorem claim_C5 (f p b d t : ℚ)
    (hf : 0 ≤ f ∧ f ≤ 1) (hp : 0 ≤ p ∧ p ≤ 1) (hb : 0 ≤ b ∧ b ≤ 1)
    (hd : 0 ≤ d ∧ d ≤ 1) (ht : 0 ≤ t ∧ t ≤ 1) :
    (0.3 + 0.25 + 0.2 + 0.15 + 0.1 : ℚ) = 1 ∧
    0 ≤ (assessRisk f p b d t).1 ∧ (assessRisk f p b d t).1 ≤ 1 := by
  refine ⟨by norm_num, ?_, min_le_right _ _⟩
  have htot : 0 ≤ f * 0.3 + p * 0.25 + b * 0.2 + d * 0.15 + t * 0.1 := by
    have h1 := hf.1
    have h2 := hp.1
    have h3 := hb.1
    have h4 := hd.1
    have h5 := ht.1
    linarith
  exact le_min htot (by norm_num)

/-- Witness for C5 with every sub-score equal to 0.5. -/
theorem claim_C5_witness :
    (0.3 + 0.25 + 0.2 + 0.15 + 0.1 : ℚ) = 1 ∧
    0 ≤ (assessRisk 0.5 0.5 0.5 0.5 0.5).1 ∧ (assessRisk 0.5 0.5 0.5 0.5 0.5).1 ≤ 1 :=
  claim_C5 0.5 0.5 0.5 0.5 0.5 (by norm_num) (by norm_num) (by norm_num)
    (by norm_num) (by norm_num)

/-- `analyzeFrequency`, as a function of the one-hour update count and the
average interval returned by its query (`avg_interval` is SQL NULL when
there are fewer than two rows, and the JavaScript `avg_interval &&` guard
also treats 0 as falsy). -/
def analyzeFrequency (count : Nat) (avgInterval : Option ℚ) : ℚ :=
  if count > 20 then 0.9
  else if count > 10 then 0.7
  else if count > 5 then 0.4
  else
    match avgInterval with
    | some a =>
      if a ≠ 0 ∧ a < 5 then 0.8
      else if a ≠ 0 ∧ a < 15 then 0.5
      else 0.1
    | none => 0.1

/-- `analyzeScorePattern`, as a function of the user's most recent (at most
50) history increments and the proposed increment.  An empty history takes
the early-return default 0.1 before any average is computed. -/
def analyzeScorePattern (increments : List ℚ) (scoreIncrement : ℚ) : ℚ :=
  match increments with
  | [] => 0.1
  | i :: rest =>
    let avgIncrement := (i :: rest).sum / (i :: rest).length
    let maxIncrement := rest.foldl max i
    if scoreIncrement > maxIncrement * 2 then 0.9
    else if scoreIncrement > avgIncrement * 5 then 0.7
    else if (i :: rest).dedup.length = 1 ∧ (i :: rest).length > 10 then 0.8
    else 0.1

/-- `analyzeBehavior`, as a function of the stored behavior profile
(`none` models a redis hash whose `action_types` field is absent, i.e. a
new user) and the current action type. -/
def analyzeBehavior (actionTypes : Option (List (String × ℚ)))
    (currentActionType : String) : ℚ :=
  match actionTypes with
  | none => 0.2
  | some ats =>
    let actionFrequency := (ats.lookup currentActionType).getD 0
    let totalActions := (ats.map Prod.snd).sum
    let actionProbability := actionFrequency / totalActions
    if actionProbability < 0.05 then 0.6
    else if actionProbability < 0.1 then 0.3
    else 0.1

/-- C6: for a user with no recorded history the documented analyzers return
their defaults (0.1 pattern, 0.2 behavior, 0.1 frequency), each strictly
between 0 and the BLOCK threshold 0.8 — a moderate value, not an extreme
one — and the engine's assessment of such a user is the defined weighted
combination of those defaults: it does not fail. -/
theorem claim_C6 (inc : ℚ) (act : String) (d t : ℚ) :
    analyzeScorePattern [] inc = 0.1 ∧
    analyzeBehavior none act = 0.2 ∧
    analyzeFrequency 0 none = 0.1 ∧
    (0 < analyzeScorePattern [] inc ∧ analyzeScorePattern [] inc < 0.8) ∧
    (0 < analyzeBehavior none act ∧ analyzeBehavior none act < 0.8) ∧
    (0 < analyzeFrequency 0 none ∧ analyzeFrequency 0 none < 0.8) ∧
    (assessRisk (analyzeFrequency 0 none) (analyzeScorePattern [] inc)
        (analyzeBehavior none act) d t).1 =
      min (0.1 * 0.3 + 0.1 * 0.25 + 0.2 * 0.2 + d * 0.15 + t * 0.1) 1 := by
  have hfreq : analyzeFrequency 0 none = 0.1 := rfl
  have hpat : analyzeScorePattern [] inc = 0.1 := rfl
  have hbeh : analyzeBehavior none act = 0.2 := rfl
  refine ⟨hpat, hbeh, hfreq, ?_, ?_, ?_, ?_⟩
  · rw [hpat]; norm_num
  · rw [hbeh]; norm_num
  · rw [hfreq]; norm_num
  · rw [assessRisk, hfreq, hpat, hbeh]

end Fraud

namespace ActionToken

/-- The signed fields of an action token (the payload built by the
documented `generateActionToken`).  Identifiers, action types and the
32-byte nonce are abstracted as `Nat`; instants are milliseconds as `Int`. -/
structure Payload where
  action_id : Nat
  user_id : Nat
  action_type : Nat
  score_increment : Int
  timestamp : Int
  nonce : Nat
deriving DecidableEq

/-- A token: its payload plus the HMAC-SHA256 signature, with hex digests
abstracted as `Nat` and the HMAC itself as an explicit function argument. -/
structure Token extends Payload where
  signature : Nat
deriving DecidableEq

/-- The rejection reasons thrown by `validateActionToken`. -/
inductive SecurityError
  | INVALID_SIGNATURE
  | TOKEN_EXPIRED
  | REPLAY_ATTACK
deriving DecidableEq

/-- The redis nonce store: `nonce:<n>` keys with absolute expiry instants;
`setex` with a 600-second TTL records expiry `now + 600000` ms. -/
abbrev NonceStore := List (Nat × Int)

/-- `redis.get` on a nonce key: truthy exactly when the nonce was recorded
and its TTL has not yet elapsed. -/
def nonceGet (store : NonceStore) (now : Int) (nonce : Nat) : Bool :=
  store.any fun e => e.1 == nonce && decide (now < e.2)

/-- `redis.setex(nonceKey, 600, '1')`: record the nonce for 10 minutes. -/
def nonceSetex (store : NonceStore) (now : Int) (nonce : Nat) : NonceStore :=
  (nonce, now + 600 * 1000) :: store

/-- Steps 1–4 of the documented `validateActionToken` (parse, signature
comparison, 5-minute age window with strict `>`, nonce lookup): the
read-only phase, which reads the store but does not write it. -/
def validateChecks (hmac : Payload → Nat) (now : Int) (t : Token)
    (store : NonceStore) : Except SecurityError Payload :=
  if t.signature ≠ hmac t.toPayload then .error .INVALID_SIGNATURE
  else if 5 * 60 * 1000 < now - t.timestamp then .error .TOKEN_EXPIRED
  else if nonceGet store now t.toPayload.nonce then .error .REPLAY_ATTACK
  else .ok t.toPayload

/-- The full documented `validateActionToken` pipeline: the checks of steps
1–4 followed, on success, by the step-5 `setex` recording the nonce. -/
def validateActionToken (hmac : Payload → Nat) (now : Int) (t : Token)
    (store : NonceStore) : Except SecurityError (Payload × NonceStore) :=
  match validateChecks hmac now t store with
  | .error e => .error e
  | .ok p => .ok (p, nonceSetex store now p.nonce)

/-- A sample HMAC oracle for concrete evaluations. -/
def hmacZero : Payload → Nat := fun _ => 0

/-- A sample token, correctly signed under `hmacZero`, issued at instant 0. -/
def sampleToken : Token :=
  { action_id := 1, user_id := 7, action_type := 2, score_increment := 50,
    timestamp := 0, nonce := 11, signature := 0 }

/-- C3: for a token whose signature verifies and whose nonce is fresh,
validation fails with `TOKEN_EXPIRED` exactly when the token's age exceeds
the fixed 5-minute window, and any age of at most 5 minutes — the boundary
included, by the documented strict comparison — is accepted. -/
theorem claim_C3 (hmac : Payload → Nat) (now : Int) (t : Token) (store : NonceStore)
    (hsig : t.signature = hmac t.toPayload)
    (hfresh : nonceGet store now t.toPayload.nonce = false) :
    (validateActionToken hmac now t store = .error .TOKEN_EXPIRED ↔
      5 * 60 * 1000 < now - t.timestamp) ∧
    (now - t.timestamp ≤ 5 * 60 * 1000 →
      validateActionToken hmac now t store =
        .ok (t.toPayload, nonceSetex store now t.toPayload.nonce)) := by
  have h1 : ¬ (t.signature ≠ hmac t.toPayload) := by simp [hsig]
  have h2 : ¬ (nonceGet store now t.toPayload.nonce = true) := by simp [hfresh]
  unfold validateActionToken validateChecks
  rw [if_neg h1]
  constructor
  · by_cases hage : 5 * 60 * 1000 < now - t.timestamp
    · rw [if_pos hage]
      simp
      omega
    · rw [if_neg hage, if_neg h2]
      simp
      omega
  · intro hage
    rw [if_neg (not_lt.mpr hage), if_neg h2]

/-- Witness for C3 at the expiry boundary: validating `sampleToken`
(issued at 0) at instant 300000 — age exactly 5 minutes — accepts it. -/
theorem claim_C3_witness :
    (validateActionToken hmacZero 300000 sampleToken [] = .error .TOKEN_EXPIRED ↔
      5 * 60 * 1000 < (300000 : Int) - sampleToken.timestamp) ∧
    ((300000 : Int) - sampleToken.timestamp ≤ 5 * 60 * 1000 →
      validateActionToken hmacZero 300000 sampleToken [] =
        .ok (sampleToken.toPayload, nonceSetex [] 300000 sampleToken.toPayload.nonce)) :=
  claim_C3 hmacZero 300000 sampleToken [] rfl rfl

/-- C1 (amended, sequential part): a valid token submitted twice in
sequence, both times within the 5-minute age window, is accepted exactly
once; the second validation sees the recorded (still-retained) nonce and
fails with the replay error. -/
theorem claim_C1 (hmac : Payload → Nat) (now1 now2 : Int) (t : Token) (store : NonceStore)
    (hsig : t.signature = hmac t.toPayload)
    (hts : t.timestamp ≤ now1) (h12 : now1 ≤ now2)
    (hage1 : now1 - t.timestamp ≤ 5 * 60 * 1000)
    (hage2 : now2 - t.timestamp ≤ 5 * 60 * 1000)
    (hfresh : nonceGet store now1 t.toPayload.nonce = false) :
    validateActionToken hmac now1 t store =
      .ok (t.toPayload, nonceSetex store now1 t.toPayload.nonce) ∧
    validateActionToken hmac now2 t (nonceSetex store now1 t.toPayload.nonce) =
      .error .REPLAY_ATTACK := by
  have h1 : ¬ (t.signature ≠ hmac t.toPayload) := by simp [hsig]
  constructor
  · unfold validateActionToken validateChecks
    rw [if_neg h1, if_neg (not_lt.mpr hage1), if_neg (by simp [hfresh])]
  · have hget : nonceGet (nonceSetex store now1 t.toPayload.nonce) now2
        t.toPayload.nonce = true := by
      have hlt : now2 < now1 + 600 * 1000 := by omega
      simp [nonceGet, nonceSetex]
      exact Or.inl (by omega)
    unfold validateActionToken validateChecks
    rw [if_neg h1, if_neg (not_lt.mpr hage2), if_pos hget]

/-- Witness for C1 (amended): `sampleToken` submitted at instants 100 and
200 is accepted at 100 and rejected as a replay at 200. -/
theorem claim_C1_witness :
    validateActionToken hmacZero 100 sampleToken [] =
      .ok (sampleToken.toPayload, nonceSetex [] 100 sampleToken.toPayload.nonce) ∧
    validateActionToken hmacZero 200 sampleToken
        (nonceSetex [] 100 sampleToken.toPayload.nonce) =
      .error .REPLAY_ATTACK :=
  claim_C1 hmacZero 100 200 sampleToken [] rfl (by decide) (by decide)
    (by decide) (by decide) rfl

/-- The interleaving of two concurrent `validateActionToken` calls on the
same token in which both calls complete the read-only checks of steps 1–4
(up to and including the awaited `redis.get`) before either performs the
awaited `redis.setex` write of step 5; each call that passed its checks
then records the nonce and returns its payload. -/
def runConcurrentDuplicate (hmac : Payload → Nat) (now : Int) (t : Token)
    (store : NonceStore) :
    Except SecurityError Payload × Except SecurityError Payload × NonceStore :=
  let r1 := validateChecks hmac now t store
  let r2 := validateChecks hmac now t store
  let store1 := match r1 with
    | .ok p => nonceSetex store now p.nonce
    | .error _ => store
  let store2 := match r2 with
    | .ok p => nonceSetex store1 now p.nonce
    | .error _ => store1
  (r1, r2, store2)

/-- C1 counterexample: the documented nonce check (`redis.get`) and nonce
record (`redis.setex`) are two separate awaited operations, so in the
interleaving where two concurrent submissions of the same valid token both
pass the check before either records the nonce, both submissions are
accepted — not exactly one acceptance and one replay rejection. -/
theorem claim_C1_counterexample :
    (runConcurrentDuplicate hmacZero 0 sampleToken []).1 =
      .ok sampleToken.toPayload ∧
    (runConcurrentDuplicate hmacZero 0 sampleToken []).2.1 =
      .ok sampleToken.toPayload :=
  ⟨rfl, rfl⟩

end ActionToken

namespace Ledger

/-- One immutable `ScoreHistoryEntry` audit record: old score, new score,
increment, action type, timestamp. -/
structure HistoryEntry where
  userId : Nat
  oldScore : Int
  newScore : Int
  increment : Int
  actionType : Nat
  timestamp : Int
deriving DecidableEq

/-- The authoritative store: current scores plus the append-only history. -/
structure LedgerState where
  scores : List (Nat × Int)
  history : List HistoryEntry
deriving DecidableEq

/-- The current score of a user (0 before any update). -/
def getScore (st : LedgerState) (u : Nat) : Int :=
  (st.scores.lookup u).getD 0

/-- Write a user's score in the association list. -/
def setScore (scores : List (Nat × Int)) (u : Nat) (v : Int) : List (Nat × Int) :=
  (u, v) :: scores.filter fun e => e.1 ≠ u

/-- Outcome of one Score Ledger application attempt. -/
inductive ApplyResult
  | ok
  | transientStorageError
deriving DecidableEq

/-- Modelled from the spec: the Score Ledger has no implementation anywhere
in the repository (the scoreboard service exists only as design-level
documentation, whose documents contain no ledger code), so the atomic
application is taken from the spec's words: a validated, risk-cleared
increment is applied in one atomic unit that mutates the user's score and
appends exactly one `ScoreHistoryEntry` recording old score, new score,
increment, action type and timestamp; when the atomic unit cannot complete
(storage unavailable) the whole update fails as a retryable error and the
observable state is unchanged. -/
def applyScore (st : LedgerState) (u : Nat) (inc : Int) (actionType : Nat)
    (ts : Int) (storageAvailable : Bool) : ApplyResult × LedgerState :=
  if storageAvailable then
    let old := getScore st u
    (.ok,
      { scores := setScore st.scores u (old + inc),
        history := ⟨u, old, old + inc, inc, actionType, ts⟩ :: st.history })
  else (.transientStorageError, st)

/-- C2 (spec-modelled): a Score Ledger application attempt either commits
the score mutation together with exactly one matching history entry, or
commits neither: a failed attempt reports a retryable error and leaves the
observable state — in particular the score — unchanged, and a successful
attempt both raises the user's score by the increment and prepends exactly
one `ScoreHistoryEntry` whose fields record that very mutation. -/
theorem claim_C2 (st : LedgerState) (u : Nat) (inc : Int) (actionType : Nat) (ts : Int) :
    (applyScore st u inc actionType ts false).2 = st ∧
    (applyScore st u inc actionType ts false).1 = .transientStorageError ∧
    getScore (applyScore st u inc actionType ts true).2 u = getScore st u + inc ∧
    (applyScore st u inc actionType ts true).2.history =
      ⟨u, getScore st u, getScore st u + inc, inc, actionType, ts⟩ :: st.history := by
  refine ⟨rfl, rfl, ?_, rfl⟩
  show getScore
      ⟨setScore st.scores u (getScore st u + inc),
        ⟨u, getScore st u, getScore st u + inc, inc, actionType, ts⟩ :: st.history⟩ u =
    getScore st u + inc
  simp [getScore, setScore, List.lookup]

end Ledger

namespace Crud

/-- One row of the `users` table. -/
structure UserRow where
  id : Nat
  name : String
  email : String
  age : Option Nat
  createdAt : Nat
  updatedAt : Nat
deriving DecidableEq

/-- The SQLite database contents.  Each `db.run` / `db.get` / `db.all`
call against it is one database round trip; every operation below returns
its result paired with the number of round trips it issued. -/
abbrev DB := List UserRow

/-- Substring containment, modelling SQL `LIKE '%needle%'` for a non-empty
needle. -/
def containsSub (needle hay : String) : Bool := (hay.splitOn needle).length != 1

/-- The `SELECT 1 FROM users WHERE email = ? [AND id != ?]` of
`UserModel.exists`; the exclusion clause is added only for a truthy
`excludeId` (JavaScript: ids are ≥ 1, 0 is falsy). -/
def existsQuery (db : DB) (email : String) (excludeId : Option Nat) : Bool :=
  db.any fun r =>
    r.email == email &&
      match excludeId with
      | some 0 => true
      | some i => r.id != i
      | none => true

/-- Body of a `POST /users` request after validation. -/
structure CreateUserRequest where
  name : String
  email : String
  age : Option Nat
deriving DecidableEq

/-- Body of a `PUT /users/:id` request after validation. -/
structure UpdateUserRequest where
  name : Option String
  email : Option String
  age : Option Nat
deriving DecidableEq

/-- Validated query parameters of `GET /users`. -/
structure QueryFilters where
  page : Option Nat
  limit : Option Nat
  name : Option String
  email : Option String
  minAge : Option Nat
  maxAge : Option Nat

/-- `UserModel.create`: a single `INSERT` round trip. -/
def modelCreate (db : DB) (d : CreateUserRequest) (newId now : Nat) :
    (UserRow × DB) × Nat :=
  let row : UserRow := ⟨newId, d.name, d.email, d.age, now, now⟩
  ((row, row :: db), 1)

/-- `UserModel.findById`: a single `SELECT ... WHERE id = ?` round trip. -/
def modelFindById (db : DB) (id : Nat) : Option UserRow × Nat :=
  (db.find? fun r => r.id == id, 1)

/-- The WHERE clause built by `UserModel.findAll`: `name`/`email` filters
apply only when truthy (present and non-empty), `minAge`/`maxAge` whenever
present; SQL comparisons on a NULL `age` exclude the row. -/
def matchesFilters (f : QueryFilters) (r : UserRow) : Bool :=
  (match f.name with
    | none => true
    | some s => if s.isEmpty then true else containsSub s r.name) &&
  (match f.email with
    | none => true
    | some s => if s.isEmpty then true else containsSub s r.email) &&
  (match f.minAge with
    | none => true
    | some m => match r.age with | none => false | some a => m ≤ a) &&
  (match f.maxAge with
    | none => true
    | some m => match r.age with | none => false | some a => a ≤ m)

/-- `filters.page || 1`: JavaScript `||` treats 0 as falsy. -/
def effPage (f : QueryFilters) : Nat :=
  match f.page with
  | none => 1
  | some 0 => 1
  | some p => p

/-- `Math.min(filters.limit || 10, 50)`: the clamp of the requested page
size. -/
def effectiveLimit (f : QueryFilters) : Nat :=
  min
    (match f.limit with
      | none => 10
      | some 0 => 10
      | some l => l)
    50

/-- Insert into a list kept in descending `createdAt` order. -/
def insertDesc (r : UserRow) : List UserRow → List UserRow
  | [] => [r]
  | x :: xs => if x.createdAt ≤ r.createdAt then r :: x :: xs else x :: insertDesc r xs

/-- `ORDER BY created_at DESC`. -/
def sortDesc : List UserRow → List UserRow
  | [] => []
  | x :: xs => insertDesc x (sortDesc xs)

/-- The paginated response assembled by `UserModel.findAll`. -/
structure Paginated where
  data : List UserRow
  page : Nat
  limit : Nat
  total : Nat
  totalPages : Nat
  hasNext : Bool
  hasPrev : Bool

/-- `UserModel.findAll`: a `COUNT(*)` round trip followed by the paginated
data round trip (`LIMIT ? OFFSET ?`) — two queries. -/
def modelFindAll (db : DB) (f : QueryFilters) : Paginated × Nat :=
  let page := effPage f
  let limit := effectiveLimit f
  let offset := (page - 1) * limit
  let matched := db.filter (matchesFilters f)
  let total := matched.length
  let totalPages := (total + limit - 1) / limit
  let rows := ((sortDesc matched).drop offset).take limit
  (⟨rows, page, limit, total, totalPages,
      decide (page < totalPages), decide (1 < page)⟩, 2)

/-- Outcome of `UserModel.update`. -/
inductive UpdateOutcome
  | noFields
  | notFound
  | updated (row : Option UserRow)
deriving DecidableEq

/-- The `SET` clause applied to one row (plus `updated_at`). -/
def applyUpdate (d : UpdateUserRequest) (now : Nat) (r : UserRow) : UserRow :=
  { r with
    name := d.name.getD r.name,
    email := d.email.getD r.email,
    age := match d.age with | some a => some a | none => r.age,
    updatedAt := now }

/-- `UserModel.update`: rejects with no round trip when no field is given;
otherwise one `UPDATE` round trip, plus a `findById` round trip to re-read
the row when a row was changed — one or two queries. -/
def modelUpdate (db : DB) (id : Nat) (d : UpdateUserRequest) (now : Nat) :
    (UpdateOutcome × DB) × Nat :=
  if d.name = none ∧ d.email = none ∧ d.age = none then ((.noFields, db), 0)
  else
    let changes := (db.filter fun r => r.id == id).length
    let db' := db.map fun r => if r.id == id then applyUpdate d now r else r
    if changes = 0 then ((.notFound, db'), 1)
    else ((.updated (modelFindById db' id).1, db'), 1 + (modelFindById db' id).2)

/-- `UserModel.delete`: a single `DELETE` round trip; `this.changes > 0`
reports whether a row was removed. -/
def modelDelete (db : DB) (id : Nat) : (Bool × DB) × Nat :=
  ((db.any fun r => r.id == id, db.filter fun r => r.id != id), 1)

/-- HTTP statuses produced by the controllers. -/
inductive Status
  | s200
  | s201
  | s404
  | s409
  | s500
deriving DecidableEq

/-- `UserController.create`: the email-existence check, then the insert —
one round trip on the conflict path, two on the success path. -/
def controllerCreate (db : DB) (d : CreateUserRequest) (newId now : Nat) :
    (Status × DB) × Nat :=
  if existsQuery db d.email none then ((.s409, db), 1)
  else
    let r := modelCreate db d newId now
    ((.s201, r.1.2), 1 + r.2)

/-- `UserController.getAll`. -/
def controllerGetAll (db : DB) (f : QueryFilters) : (Status × Paginated) × Nat :=
  let r := modelFindAll db f
  ((.s200, r.1), r.2)

/-- `UserController.getById`. -/
def controllerGetById (db : DB) (id : Nat) : (Status × Option UserRow) × Nat :=
  let r := modelFindById db id
  match r.1 with
  | none => ((.s404, none), r.2)
  | some u => ((.s200, some u), r.2)

/-- `UserController.update`: the existence pre-check, the email-uniqueness
check when a (truthy) email is supplied, then `UserModel.update` — between
one and four round trips. -/
def controllerUpdate (db : DB) (id : Nat) (d : UpdateUserRequest) (now : Nat) :
    (Status × DB) × Nat :=
  let pre := modelFindById db id
  match pre.1 with
  | none => ((.s404, db), pre.2)
  | some _ =>
    let checkEmail := match d.email with | some e => !e.isEmpty | none => false
    if checkEmail then
      if existsQuery db (d.email.getD "") (some id) then ((.s409, db), pre.2 + 1)
      else
        let r := modelUpdate db id d now
        ((if r.1.1 = .noFields then .s500 else .s200, r.1.2), pre.2 + 1 + r.2)
    else
      let r := modelUpdate db id d now
      ((if r.1.1 = .noFields then .s500 else .s200, r.1.2), pre.2 + r.2)

/-- `UserController.delete`. -/
def controllerDelete (db : DB) (id : Nat) : (Status × DB) × Nat :=
  let r := modelDelete db id
  if r.1.1 then ((.s200, r.1.2), r.2) else ((.s404, db), r.2)

/-- The empty `GET /users` query (all parameters absent). -/
def noFilters : QueryFilters := ⟨none, none, none, none, none, none⟩

end Crud

namespace Crud

/-- C9 counterexample: the `GET /users` operation, handled on an empty
database with no query parameters, issues two database queries (the
`COUNT(*)` and the paginated data select) while producing its response —
more than one round trip, contrary to the claim. -/
theorem claim_C9_counterexample :
    (controllerGetAll [] noFilters).2 = 2 ∧ ¬ (controllerGetAll [] noFilters).2 ≤ 1 :=
  ⟨rfl, by decide⟩

/-- C9 (amended): per handled request, `getById` and `delete` issue exactly
one query and `UserModel.create` issues exactly one; but `findAll` (hence
`GET /users`) always issues exactly two, `UserController.create` issues one
or two, `UserModel.update` up to two and `UserController.update` up to
four — every operation issues a bounded number of queries, not always one. -/
theorem claim_C9 (db : DB) (d : CreateUserRequest) (ud : UpdateUserRequest)
    (f : QueryFilters) (id newId now : Nat) :
    (modelFindById db id).2 = 1 ∧
    (controllerGetById db id).2 = 1 ∧
    (modelDelete db id).2 = 1 ∧
    (controllerDelete db id).2 = 1 ∧
    (modelCreate db d newId now).2 = 1 ∧
    (modelFindAll db f).2 = 2 ∧
    (controllerGetAll db f).2 = 2 ∧
    1 ≤ (controllerCreate db d newId now).2 ∧
    (controllerCreate db d newId now).2 ≤ 2 ∧
    (modelUpdate db id ud now).2 ≤ 2 ∧
    1 ≤ (controllerUpdate db id ud now).2 ∧
    (controllerUpdate db id ud now).2 ≤ 4 := by
  have hmu : (modelUpdate db id ud now).2 ≤ 2 := by
    unfold modelUpdate
    dsimp only [modelFindById]
    repeat' split
    all_goals omega
  refine ⟨rfl, ?_, rfl, ?_, rfl, rfl, rfl, ?_, ?_, hmu, ?_, ?_⟩
  · unfold controllerGetById
    dsimp only [modelFindById]
    split <;> rfl
  · unfold controllerDelete
    dsimp only [modelDelete]
    split <;> rfl
  · unfold controllerCreate
    dsimp only [modelCreate]
    split <;> omega
  · unfold controllerCreate
    dsimp only [modelCreate]
    split <;> omega
  · unfold controllerUpdate
    dsimp only [modelFindById]
    repeat' split
    all_goals dsimp only
    all_goals omega
  · unfold controllerUpdate
    dsimp only [modelFindById]
    repeat' split
    all_goals dsimp only
    all_goals omega

/-- The Joi `querySchema` constraint on `limit`:
`Joi.number().integer().min(1).max(50)`, over a converted numeric query
parameter embedded as `ℚ`. -/
def querySchemaLimitOk (l : ℚ) : Bool :=
  decide (l.den = 1) && decide (1 ≤ l) && decide (l ≤ 50)

/-- C10: every `GET /users` page holds at most 50 records — `findAll`
returns at most the effective limit `min(requested limit, 50)` many rows —
and the query validation schema independently rejects any requested limit
above 50. -/
theorem claim_C10 (db : DB) (f : QueryFilters) :
    (modelFindAll db f).1.data.length ≤ effectiveLimit f ∧
    effectiveLimit f ≤ 50 ∧
    (∀ l : ℚ, 50 < l → querySchemaLimitOk l = false) := by
  refine ⟨?_, min_le_right _ _, ?_⟩
  · show (((sortDesc (db.filter (matchesFilters f))).drop
        ((effPage f - 1) * effectiveLimit f)).take (effectiveLimit f)).length ≤
      effectiveLimit f
    exact List.length_take_le _ _
  · intro l hl
    simp only [querySchemaLimitOk, Bool.and_eq_false_iff]
    right
    simpa using not_le.mpr hl

/-- Witness for C10 on the empty database with no query parameters, and the
requested limit 51. -/
theorem claim_C10_witness :
    (modelFindAll [] noFilters).1.data.length ≤ effectiveLimit noFilters ∧
    effectiveLimit noFilters ≤ 50 ∧
    querySchemaLimitOk 51 = false := by
  have h := claim_C10 [] noFilters
  exact ⟨h.1, h.2.1, h.2.2 51 (by norm_num)⟩

end Crud
